import Mathlib

/-!
# Dashboard glue script (`app/static/js/main.js`)

A shallow embedding of the script's functions.  JavaScript strings are
sequences of characters, objects are lists of own properties in enumeration
order, and every call that leaves the script (DOM, table widget, chart
library) is appended to an explicit trace carried by the page state.
-/

set_option autoImplicit false

namespace Main

/-- A JavaScript string, as the sequence of its characters. -/
abbrev Str := List Char

/-- Errors the script can raise. -/
inductive JSError
  | typeError
  | uriError
  deriving DecidableEq, Repr

/-- A scalar JavaScript value over a host number type `Num`. -/
inductive Scalar (Num : Type)
  | undefined
  | null
  | bool (b : Bool)
  | num (x : Num)
  | str (s : Str)
  deriving DecidableEq, Repr

/-- A plain object: its own enumerable properties, in the order in which
`Object.keys` and `Object.values` enumerate them. -/
abbrev Obj (Num : Type) := List (Str × Scalar Num)

/-- The call `Object.keys(x)`: raises a `TypeError` when `x` is `undefined`. -/
def objectKeys {Num : Type} : Option (Obj Num) → Except JSError (List Str)
  | none => .error .typeError
  | some o => .ok (o.map Prod.fst)

/-- The call `Object.values(o)` on an object. -/
def objectValues {Num : Type} (o : Obj Num) : List (Scalar Num) :=
  o.map Prod.snd

/-- The text `Array.prototype.join` uses for one element: `undefined` and
`null` give the empty string, everything else its `ToString`; the rendering of
a number is the host's and is taken as `numToString`. -/
def elementText {Num : Type} (numToString : Num → Str) : Scalar Num → Str
  | .undefined => []
  | .null => []
  | .bool true => "true".toList
  | .bool false => "false".toList
  | .num x => numToString x
  | .str s => s

/-- The call `xs.join(",")` on an array of strings. -/
def joinComma (xs : List Str) : Str :=
  [','].intercalate xs

/-- The constant the export starts `csvContent` with. -/
def dataUriLead : Str := "data:text/csv;charset=utf-8,".toList

/-- The body of the `forEach` callback of `exportToCSV`: one more row. -/
def appendRow {Num : Type} (numToString : Num → Str) (csvContent : Str) (item : Obj Num) : Str :=
  let row := joinComma ((objectValues item).map (elementText numToString))
  csvContent ++ (row ++ ['\n'])

/-- Lines 31 to 37 of `exportToCSV`: the value of `csvContent` after the
loop, or the error raised on the way. -/
def buildCsvContent {Num : Type} (numToString : Num → Str) (data : List (Obj Num)) :
    Except JSError Str :=
  let csvContent := dataUriLead
  match objectKeys (data.get? 0) with
  | .error e => .error e
  | .ok keys =>
    let csvContent := csvContent ++ (joinComma keys ++ ['\n'])
    .ok (data.foldl (appendRow numToString) csvContent)

/-- The CSV text: what follows the `data:` lead in `csvContent`. -/
def csvText (csvContent : Str) : Str :=
  csvContent.drop dataUriLead.length

/-- Everything up to the first newline of a text. -/
def firstLine (t : Str) : Str :=
  t.takeWhile (· != '\n')

/-- The lines of a text: its pieces between newlines, where a newline at the
very end closes the last line instead of opening an empty one. -/
def textLines (t : Str) : List Str :=
  let parts := t.splitOn '\n'
  if parts.getLast? = some [] then parts.dropLast else parts

/-- The data lines of a CSV text: its lines after the header line. -/
def dataLines (t : Str) : List Str :=
  (textLines t).tail

/-- The call `line.split(",")`. -/
def splitComma (line : Str) : List Str :=
  line.splitOn ','

/-- The text form of the values of a record, in the record's own order. -/
def valueTexts {Num : Type} (numToString : Num → Str) (item : Obj Num) : List Str :=
  (objectValues item).map (elementText numToString)

/-! ## The page: document, listeners and the trace of outgoing calls -/

/-- An element of the document.  `tag` is the lower-case local name;
`validity` is what the element's `checkValidity()` reports, `none` when the
element has no such method. -/
structure Element where
  tag : Str
  id : Option Str
  classes : List Str
  validity : Option Bool
  deriving DecidableEq, Repr

/-- The label column of `lengthMenu`: a number or a text. -/
inductive MenuLabel
  | count (n : Int)
  | text (s : Str)
  deriving DecidableEq, Repr

/-- The options object handed to the table widget. -/
structure TableConfig where
  order : List (Nat × Str)
  pageLength : Nat
  lengthMenu : List Int × List MenuLabel
  responsive : Bool
  deriving DecidableEq, Repr

/-- One dataset of a chart configuration; a field the script leaves out is
`none`.  `tension` holds the decimal literal of the source. -/
structure Dataset (Num : Type) where
  label : Option Str
  data : List (Scalar Num)
  backgroundColor : Option (List Str)
  borderColor : Option Str
  tension : Option ℚ

/-- The `options` object of a chart configuration: `responsive`,
`plugins.legend.position` and `scales.y.beginAtZero`. -/
structure ChartOptions where
  responsive : Bool
  legendPosition : Option Str
  yBeginAtZero : Option Bool
  deriving DecidableEq, Repr

/-- The configuration object handed to `new Chart`. -/
structure ChartConfig (Num : Type) where
  type : Str
  labels : List Str
  datasets : List (Dataset Num)
  options : ChartOptions

/-- A rendering surface, by its handle. -/
abbrev Ctx := Nat

/-- The calls that leave the script, as recorded in the trace.  Elements are
named by their position in the document. -/
inductive Call (Num : Type)
  | dataTable (targets : List Nat) (config : TableConfig)
  | newChart (ctx : Ctx) (config : ChartConfig Num)
  | createElement (tag : Str)
  | setAttribute (name value : Str)
  | appendChild
  | click
  | removeChild

/-- The state of the page: the elements in document order, the elements the
submit listener was added to, and the trace of outgoing calls. -/
structure Page (Num : Type) where
  elements : List Element
  submitListeners : List Nat
  calls : List (Call Num)

/-- The calls a submit listener makes on its event. -/
inductive EventCall
  | preventDefault
  | stopPropagation
  deriving DecidableEq, Repr

/-- The call `document.getElementById(id)`: the first element carrying that id, by
position; the empty string names no element. -/
def getElementById (elements : List Element) (id : Str) : Option Nat :=
  if id = [] then none else elements.findIdx? (fun e => e.id == some id)

/-- Positions of the elements satisfying `p`, in document order. -/
def positionsWhere (elements : List Element) (p : Element → Bool) : List Nat :=
  (List.range elements.length).filter fun i =>
    match elements.get? i with
    | some e => p e
    | none => false

/-- The call `document.querySelectorAll` on a class selector, as the script
uses it: the elements whose class list holds `token`. -/
def querySelectorAllClass (elements : List Element) (token : Str) : List Nat :=
  positionsWhere elements fun e => decide (token ∈ e.classes)

/-- A character matched by `\w`. -/
def isWordChar (c : Char) : Bool :=
  c.isAlphanum || c == '_'

/-- A character matched by `[\w-]`. -/
def isWordOrDash (c : Char) : Bool :=
  isWordChar c || c == '-'

/-- The selection `$(selector)` of the jQuery library (not part of this
repository) on the three single-token selectors its engine answers directly:
`#id` through `getElementById`, a bare word through `getElementsByTagName`
(which lower-cases the name in an HTML document) and `.class` through
`getElementsByClassName`.  Every other string is outside the model: `none`. -/
def jQuery (elements : List Element) (selector : Str) : Option (List Nat) :=
  match selector with
  | '#' :: name =>
    if name ≠ [] ∧ name.all isWordOrDash then some (getElementById elements name).toList
    else none
  | '.' :: name =>
    if name ≠ [] ∧ name.all isWordOrDash then
      some (positionsWhere elements fun e => decide (name ∈ e.classes))
    else none
  | name =>
    if name ≠ [] ∧ name.all isWordChar then
      some (positionsWhere elements fun e => e.tag == name.map Char.toLower)
    else none

/-! ## Form validation (lines 2 to 15) -/

/-- The call `classList.add(token)`. -/
def classListAdd (classes : List Str) (token : Str) : List Str :=
  if token ∈ classes then classes else classes ++ [token]

/-- The submit listener of lines 7 to 13, run on the element it was added to:
the calls it makes on the event and the element afterwards.  An element
without `checkValidity` raises a `TypeError` at the test. -/
def submitListener (form : Element) : Except JSError (List EventCall) × Element :=
  match form.validity with
  | none => (.error .typeError, form)
  | some valid =>
    let calls := if !valid then [EventCall.preventDefault, EventCall.stopPropagation] else []
    (.ok calls, { form with classes := classListAdd form.classes "was-validated".toList })

/-- The function run once at load time: every element selected by
`.needs-validation` gets the submit listener. -/
def installFormValidation {Num : Type} (page : Page Num) : Page Num :=
  let forms := querySelectorAllClass page.elements "needs-validation".toList
  forms.foldl (fun p form => { p with submitListeners := p.submitListeners ++ [form] }) page

/-! ## Table initializer (lines 18 to 27) -/

/-- The options literal of `initializeDataTable`. -/
def tableConfig : TableConfig where
  order := [(0, "desc".toList)]
  pageLength := 10
  lengthMenu := ([10, 25, 50, -1], [.count 10, .count 25, .count 50, .text "All".toList])
  responsive := true

/-- The function `initializeDataTable(tableId)`.  The outer `Option` is `none`
only where `$(tableId)` falls outside the modelled selectors. -/
def initializeDataTable {Num : Type} (tableId : Str) (page : Page Num) :
    Option (Except JSError Unit × Page Num) :=
  match getElementById page.elements tableId with
  | none => some (.ok (), page)
  | some _ =>
    match jQuery page.elements tableId with
    | none => none
    | some targets =>
      some (.ok (), { page with calls := page.calls ++ [.dataTable targets tableConfig] })

/-! ## CSV export, with its download (lines 30 to 46) -/

/-- The function `exportToCSV(data, filename)`; `encodeURI` is the host's. -/
def exportToCSV {Num : Type} (numToString : Num → Str) (encodeURI : Str → Except JSError Str)
    (data : List (Obj Num)) (filename : Str) (page : Page Num) :
    Except JSError Unit × Page Num :=
  match buildCsvContent numToString data with
  | .error e => (.error e, page)
  | .ok csvContent =>
    match encodeURI csvContent with
    | .error e => (.error e, page)
    | .ok encodedUri =>
      (.ok (), { page with calls := page.calls ++
        [.createElement "a".toList,
         .setAttribute "href".toList encodedUri,
         .setAttribute "download".toList filename,
         .appendChild, .click, .removeChild] })

/-! ## Charts (lines 49 to 95) -/

/-- A property read `o.key` on an object: `undefined` when absent. -/
def getProp {Num : Type} (o : Obj Num) (key : Str) : Scalar Num :=
  (o.lookup key).getD .undefined

/-- The function `initializeSentimentChart(ctx, data)`.  A falsy `ctx` is
`none`; `data` is `none` when it is `undefined` or `null`, where the first
property read raises a `TypeError`. -/
def initializeSentimentChart {Num : Type} (ctx : Option Ctx) (data : Option (Obj Num))
    (page : Page Num) : Except JSError Unit × Page Num :=
  match ctx with
  | none => (.ok (), page)
  | some ctx =>
    match data with
    | none => (.error .typeError, page)
    | some data =>
      (.ok (), { page with calls := page.calls ++ [.newChart ctx
        { type := "doughnut".toList
          labels := ["Positive".toList, "Negative".toList, "Neutral".toList]
          datasets := [
            { label := none
              data := [getProp data "positive".toList, getProp data "negative".toList,
                getProp data "neutral".toList]
              backgroundColor := some ["#28a745".toList, "#dc3545".toList, "#6c757d".toList]
              borderColor := none
              tension := none }]
          options :=
            { responsive := true, legendPosition := some "bottom".toList,
              yBeginAtZero := none } }] })

/-- The call `data.map(d => f(d))` where `f` reads a property of `d`: an
element that is `undefined` or `null` raises a `TypeError`. -/
def mapPoints {Num β : Type} (f : Obj Num → β) :
    List (Option (Obj Num)) → Except JSError (List β)
  | [] => .ok []
  | none :: _ => .error .typeError
  | some d :: rest =>
    match mapPoints f rest with
    | .error e => .error e
    | .ok ys => .ok (f d :: ys)

/-- The function `initializeTimelineChart(ctx, data)`.  `timeLabel v` is the
host's `new Date(v).toLocaleTimeString()`; `data` is `none` when it has no
`map` method. -/
def initializeTimelineChart {Num : Type} (timeLabel : Scalar Num → Str) (ctx : Option Ctx)
    (data : Option (List (Option (Obj Num)))) (page : Page Num) :
    Except JSError Unit × Page Num :=
  match ctx with
  | none => (.ok (), page)
  | some ctx =>
    match data with
    | none => (.error .typeError, page)
    | some data =>
      match mapPoints (fun d => timeLabel (getProp d "timestamp".toList)) data with
      | .error e => (.error e, page)
      | .ok labels =>
        match mapPoints (fun d => getProp d "compound_score".toList) data with
        | .error e => (.error e, page)
        | .ok values =>
          (.ok (), { page with calls := page.calls ++ [.newChart ctx
            { type := "line".toList
              labels := labels
              datasets := [
                { label := some "Sentiment Score".toList
                  data := values
                  backgroundColor := none
                  borderColor := some "#1DA1F2".toList
                  tension := some (1 / 10) }]
              options :=
                { responsive := true, legendPosition := none,
                  yBeginAtZero := some true } }] })

/-! ## Concrete inputs -/

/-- A document holding one table whose id is `resultsTable`. -/
def samplePage : Page Nat where
  elements := [
    { tag := "div".toList, id := some "main".toList, classes := [], validity := none },
    { tag := "table".toList, id := some "resultsTable".toList, classes := ["table".toList],
      validity := none }]
  submitListeners := []
  calls := []

/-- A decimal rendering of naturals, used for concrete records. -/
def decimal (n : Nat) : Str := Nat.toDigits 10 n

/-! ## Lemmas on joining and splitting -/

theorem foldl_appendRow {Num : Type} (numToString : Num → Str) (data : List (Obj Num))
    (init : Str) :
    data.foldl (appendRow numToString) init =
      init ++ (data.map fun item =>
        joinComma ((objectValues item).map (elementText numToString)) ++ ['\n']).flatten := by
  induction data generalizing init with
  | nil => simp
  | cons item rest ih =>
    simp only [List.foldl_cons, List.map_cons, List.flatten_cons, ih, appendRow,
      List.append_assoc]

theorem buildCsvContent_cons {Num : Type} (numToString : Num → Str) (r : Obj Num)
    (rest : List (Obj Num)) :
    buildCsvContent numToString (r :: rest) =
      .ok (dataUriLead ++ (joinComma (r.map Prod.fst) ++ '\n' ::
        ((r :: rest).map fun item =>
          joinComma ((objectValues item).map (elementText numToString)) ++ ['\n']).flatten)) := by
  simp only [buildCsvContent, objectKeys, List.get?_cons_zero, foldl_appendRow,
    List.append_assoc, List.singleton_append]

theorem csvText_lead_append (body : Str) : csvText (dataUriLead ++ body) = body := by
  simp [csvText]

theorem firstLine_append_newline (hdr rest : Str) (h : '\n' ∉ hdr) :
    firstLine (hdr ++ '\n' :: rest) = hdr := by
  induction hdr with
  | nil => simp [firstLine]
  | cons c cs ih =>
    have hc : c ≠ '\n' := fun e => h (by simp [e])
    have hcs : '\n' ∉ cs := fun m => h (List.mem_cons_of_mem _ m)
    have := ih hcs
    simp only [firstLine] at this ⊢
    simp [hc, this]

theorem splitOn_terminated (x : Char) (ls : List Str) (h : ∀ l ∈ ls, x ∉ l) :
    (ls.map (· ++ [x])).flatten.splitOn x = ls ++ [[]] := by
  induction ls with
  | nil => rfl
  | cons l rest ih =>
    have hl : ∀ c ∈ l, ¬ (c == x) = true := by
      intro c hc e
      have : c = x := by simpa using e
      exact h l (List.mem_cons_self _ _) (this ▸ hc)
    have ih' := ih (fun l' hl' => h l' (List.mem_cons_of_mem _ hl'))
    simp only [List.splitOn] at ih' ⊢
    simp only [List.map_cons, List.flatten_cons, List.append_assoc, List.singleton_append,
      List.cons_append, List.nil_append]
    rw [List.splitOnP_first (fun c => c == x) l hl x (by simp), ih']

theorem textLines_terminated (ls : List Str) (h : ∀ l ∈ ls, '\n' ∉ l) :
    textLines (ls.map (· ++ ['\n'])).flatten = ls := by
  simp [textLines, splitOn_terminated '\n' ls h]

theorem mem_joinComma {c : Char} {xs : List Str} (h : c ∈ joinComma xs) :
    c = ',' ∨ ∃ x ∈ xs, c ∈ x := by
  induction xs with
  | nil => simp [joinComma, List.intercalate] at h
  | cons x rest ih =>
    cases rest with
    | nil =>
      simp [joinComma, List.intercalate] at h
      exact Or.inr ⟨x, by simp, h⟩
    | cons y rest' =>
      have e : joinComma (x :: y :: rest') = x ++ ',' :: joinComma (y :: rest') := by
        simp [joinComma, List.intercalate]
      rw [e, List.mem_append, List.mem_cons] at h
      rcases h with h | h | h
      · exact Or.inr ⟨x, by simp, h⟩
      · exact Or.inl h
      · rcases ih h with h | ⟨z, hz, hc⟩
        · exact Or.inl h
        · exact Or.inr ⟨z, List.mem_cons_of_mem _ hz, hc⟩

theorem newline_not_mem_joinComma {xs : List Str} (h : ∀ x ∈ xs, '\n' ∉ x) :
    '\n' ∉ joinComma xs := by
  intro hm
  rcases mem_joinComma hm with e | ⟨x, hx, hc⟩
  · exact absurd e (by decide)
  · exact h x hx hc

/-- The lines of the CSV text of a non-empty export whose keys and value
texts are free of newlines: the joined keys, then one joined row per record. -/
theorem textLines_csv {Num : Type} (numToString : Num → Str) (r : Obj Num)
    (rest : List (Obj Num))
    (hk : ∀ k ∈ r.map Prod.fst, '\n' ∉ k)
    (hv : ∀ item ∈ r :: rest, ∀ v ∈ objectValues item, '\n' ∉ elementText numToString v) :
    textLines (joinComma (r.map Prod.fst) ++ '\n' ::
        ((r :: rest).map fun item =>
          joinComma ((objectValues item).map (elementText numToString)) ++ ['\n']).flatten) =
      joinComma (r.map Prod.fst) ::
        (r :: rest).map fun item => joinComma ((objectValues item).map (elementText numToString)) := by
  have key := textLines_terminated
    (joinComma (r.map Prod.fst) ::
      (r :: rest).map fun item => joinComma ((objectValues item).map (elementText numToString)))
    (by
      intro l hl
      rcases List.mem_cons.1 hl with e | hl
      · exact e ▸ newline_not_mem_joinComma hk
      · obtain ⟨item, hi, e⟩ := List.mem_map.1 hl
        subst e
        apply newline_not_mem_joinComma
        intro x hx
        obtain ⟨v, hv', e⟩ := List.mem_map.1 hx
        exact e ▸ hv item hi v hv')
  simpa [List.map_map, Function.comp_def] using key

/-- The lines of the text built for a non-empty export whose first record's
keys and whose value texts are free of newlines. -/
theorem buildCsvContent_lines {Num : Type} (numToString : Num → Str) (data : List (Obj Num))
    (hne : data ≠ [])
    (hk : ∀ k ∈ (data.head hne).map Prod.fst, '\n' ∉ k)
    (hv : ∀ item ∈ data, ∀ t ∈ valueTexts numToString item, '\n' ∉ t) :
    ∃ csvContent, buildCsvContent numToString data = .ok csvContent ∧
      textLines (csvText csvContent) =
        joinComma ((data.head hne).map Prod.fst) ::
          data.map fun item => joinComma (valueTexts numToString item) := by
  cases data with
  | nil => exact absurd rfl hne
  | cons r rest =>
    refine ⟨_, buildCsvContent_cons numToString r rest, ?_⟩
    rw [csvText_lead_append]
    exact textLines_csv numToString r rest hk (fun item hi v hv' =>
      hv item hi _ (List.mem_map.2 ⟨v, hv', rfl⟩))

/-! ## CSV export: the claims -/

/-- C1 (as amended): for every non-empty sequence of records in which no key
of the first record contains a newline, `exportToCSV` builds its text, and the
header line of that text (everything up to the first newline of what follows
the `data:` lead) is the keys of the first record joined with `,` in that
record's own key order.  Uniformity of the keys is not needed. -/
theorem exportToCSV_header_line {Num : Type} (numToString : Num → Str) (data : List (Obj Num))
    (hne : data ≠ [])
    (hk : ∀ k ∈ (data.head hne).map Prod.fst, '\n' ∉ k) :
    ∃ csvContent, buildCsvContent numToString data = .ok csvContent ∧
      firstLine (csvText csvContent) = joinComma ((data.head hne).map Prod.fst) := by
  cases data with
  | nil => exact absurd rfl hne
  | cons r rest =>
    refine ⟨_, buildCsvContent_cons numToString r rest, ?_⟩
    rw [csvText_lead_append]
    exact firstLine_append_newline _ _ (newline_not_mem_joinComma hk)

/-- C1, witness: the record `a: x, b: 12`. -/
theorem exportToCSV_header_line_witness :
    ∃ csvContent,
      buildCsvContent decimal [[("a".toList, Scalar.str "x".toList), ("b".toList, Scalar.num 12)]]
        = .ok csvContent ∧
      firstLine (csvText csvContent) = joinComma ["a".toList, "b".toList] :=
  exportToCSV_header_line decimal
    [[("a".toList, Scalar.str "x".toList), ("b".toList, Scalar.num 12)]] (by decide) (by decide)

/-- C1 as stated fails: for the single record whose only key is `a, newline, b`, the
text up to the first newline is `a`, not the joined keys `a, newline, b`. -/
theorem exportToCSV_header_line_newline_key :
    buildCsvContent decimal [[("a\nb".toList, Scalar.str "1".toList)]]
      = .ok "data:text/csv;charset=utf-8,a\nb\n1\n".toList ∧
    firstLine (csvText "data:text/csv;charset=utf-8,a\nb\n1\n".toList) = "a".toList ∧
    firstLine (csvText "data:text/csv;charset=utf-8,a\nb\n1\n".toList)
      ≠ joinComma ([("a\nb".toList, (Scalar.str "1".toList : Scalar Nat))].map Prod.fst) :=
  ⟨rfl, by decide, by decide⟩

/-- C2 (as amended): for every non-empty sequence of `n` records in which no
key of the first record and no value text contains a newline, the text built
by `exportToCSV` has exactly `n + 1` lines, one header line followed by `n`
data lines; for a single record it has exactly 2 lines. -/
theorem exportToCSV_line_count {Num : Type} (numToString : Num → Str) (data : List (Obj Num))
    (hne : data ≠ [])
    (hk : ∀ k ∈ (data.head hne).map Prod.fst, '\n' ∉ k)
    (hv : ∀ item ∈ data, ∀ t ∈ valueTexts numToString item, '\n' ∉ t) :
    ∃ csvContent, buildCsvContent numToString data = .ok csvContent ∧
      (textLines (csvText csvContent)).length = data.length + 1 ∧
      (dataLines (csvText csvContent)).length = data.length ∧
      (data.length = 1 → (textLines (csvText csvContent)).length = 2) := by
  obtain ⟨c, hc, hl⟩ := buildCsvContent_lines numToString data hne hk hv
  refine ⟨c, hc, ?_, ?_, ?_⟩
  · simp [hl]
  · simp [dataLines, hl]
  · intro h1
    simp [hl, h1]

/-- C2, witness: two records give three lines. -/
theorem exportToCSV_line_count_witness :
    ∃ csvContent,
      buildCsvContent decimal
        [[("id".toList, Scalar.num 1), ("tag".toList, Scalar.str "up".toList)],
         [("id".toList, Scalar.num 2), ("tag".toList, Scalar.str "down".toList)]]
        = .ok csvContent ∧
      (textLines (csvText csvContent)).length = 2 + 1 ∧
      (dataLines (csvText csvContent)).length = 2 ∧
      ((2 : Nat) = 1 → (textLines (csvText csvContent)).length = 2) :=
  exportToCSV_line_count decimal
    [[("id".toList, Scalar.num 1), ("tag".toList, Scalar.str "up".toList)],
     [("id".toList, Scalar.num 2), ("tag".toList, Scalar.str "down".toList)]]
    (by decide) (by decide) (by decide)

/-- C2 as stated fails: one record whose value is `x, newline, y` gives a text
of three lines, not two; and so does one record whose key is `k, newline, m`. -/
theorem exportToCSV_line_count_newline_value :
    (buildCsvContent decimal [[("a".toList, Scalar.str "x\ny".toList)]]
        = .ok "data:text/csv;charset=utf-8,a\nx\ny\n".toList ∧
      (textLines (csvText "data:text/csv;charset=utf-8,a\nx\ny\n".toList)).length = 3 ∧
      (textLines (csvText "data:text/csv;charset=utf-8,a\nx\ny\n".toList)).length
        ≠ [[("a".toList, (Scalar.str "x\ny".toList : Scalar Nat))]].length + 1) ∧
    (buildCsvContent decimal [[("k\nm".toList, Scalar.num 5)]]
        = .ok "data:text/csv;charset=utf-8,k\nm\n5\n".toList ∧
      (textLines (csvText "data:text/csv;charset=utf-8,k\nm\n5\n".toList)).length = 3 ∧
      (textLines (csvText "data:text/csv;charset=utf-8,k\nm\n5\n".toList)).length
        ≠ [[("k\nm".toList, (Scalar.num 5 : Scalar Nat))]].length + 1) :=
  ⟨⟨rfl, by decide, by decide⟩, rfl, by decide, by decide⟩

/-- C3 (as amended): for every non-empty sequence of records in which no key
of the first record and no value text contains a newline, the data lines of
the text built by `exportToCSV` are, in input order, each record's own values
in that record's own order joined with `,`; so the data line at position `i`
is the joined values of record `i`. -/
theorem exportToCSV_data_lines {Num : Type} (numToString : Num → Str) (data : List (Obj Num))
    (hne : data ≠ [])
    (hk : ∀ k ∈ (data.head hne).map Prod.fst, '\n' ∉ k)
    (hv : ∀ item ∈ data, ∀ t ∈ valueTexts numToString item, '\n' ∉ t) :
    ∃ csvContent, buildCsvContent numToString data = .ok csvContent ∧
      dataLines (csvText csvContent) =
        data.map (fun item =>
          joinComma ((objectValues item).map (elementText numToString))) ∧
      ∀ i (hi : i < data.length),
        (dataLines (csvText csvContent)).get? i =
          some (joinComma ((objectValues (data.get ⟨i, hi⟩)).map (elementText numToString))) := by
  obtain ⟨c, hc, hl⟩ := buildCsvContent_lines numToString data hne hk hv
  have hd : dataLines (csvText c) =
      data.map (fun item => joinComma ((objectValues item).map (elementText numToString))) := by
    simp [dataLines, hl, valueTexts]
  refine ⟨c, hc, hd, ?_⟩
  intro i hi
  rw [hd]
  simp [List.getElem?_eq_getElem hi]

/-- C3, witness: two records, two data lines in input order. -/
theorem exportToCSV_data_lines_witness :
    ∃ csvContent,
      buildCsvContent decimal
        [[("id".toList, Scalar.num 7), ("ok".toList, Scalar.bool true)],
         [("id".toList, Scalar.num 8), ("ok".toList, Scalar.null)]]
        = .ok csvContent ∧
      dataLines (csvText csvContent) = ["7,true".toList, "8,".toList] :=
  (exportToCSV_data_lines decimal
    [[("id".toList, Scalar.num 7), ("ok".toList, Scalar.bool true)],
     [("id".toList, Scalar.num 8), ("ok".toList, Scalar.null)]]
    (by decide) (by decide) (by decide)).imp fun _ h => ⟨h.1, h.2.1.trans (by decide)⟩

/-- C3 as stated fails: with a newline inside a value of the first record,
the data line at position 1 is the rest of that value, not the joined values
of the second record; and with a newline inside the key of a single record,
the data line at position 0 is the rest of the key, not the record's value. -/
theorem exportToCSV_data_lines_newline_value :
    buildCsvContent decimal
      [[("id".toList, Scalar.num 1), ("note".toList, Scalar.str "p\nq".toList)],
       [("id".toList, Scalar.num 2), ("note".toList, Scalar.str "r".toList)]]
      = .ok "data:text/csv;charset=utf-8,id,note\n1,p\nq\n2,r\n".toList ∧
    (dataLines (csvText "data:text/csv;charset=utf-8,id,note\n1,p\nq\n2,r\n".toList)).get? 1
      = some "q".toList ∧
    (dataLines (csvText "data:text/csv;charset=utf-8,id,note\n1,p\nq\n2,r\n".toList)).get? 1
      ≠ some (joinComma ((objectValues
          [("id".toList, Scalar.num 2), ("note".toList, Scalar.str "r".toList)]).map
        (elementText decimal))) ∧
    buildCsvContent decimal [[("u\nv".toList, Scalar.num 9)]]
      = .ok "data:text/csv;charset=utf-8,u\nv\n9\n".toList ∧
    (dataLines (csvText "data:text/csv;charset=utf-8,u\nv\n9\n".toList)).get? 0
      = some "v".toList ∧
    (dataLines (csvText "data:text/csv;charset=utf-8,u\nv\n9\n".toList)).get? 0
      ≠ some (joinComma ((objectValues [("u\nv".toList, Scalar.num 9)]).map
        (elementText decimal))) :=
  ⟨rfl, by decide, by decide, rfl, by decide, by decide⟩

/-- C4 (as amended): round trip.  For every non-empty sequence of records
that each have at least one field, in which no value text contains a comma and
no key of the first record and no value text contains a newline, splitting
each data line of the text built by `exportToCSV` on `,` gives back exactly
that record's values in their text form, in order. -/
theorem exportToCSV_round_trip {Num : Type} (numToString : Num → Str) (data : List (Obj Num))
    (hne : data ≠ [])
    (hf : ∀ item ∈ data, item ≠ [])
    (hk : ∀ k ∈ (data.head hne).map Prod.fst, '\n' ∉ k)
    (hv : ∀ item ∈ data, ∀ t ∈ valueTexts numToString item, '\n' ∉ t)
    (hc : ∀ item ∈ data, ∀ t ∈ valueTexts numToString item, ',' ∉ t) :
    ∃ csvContent, buildCsvContent numToString data = .ok csvContent ∧
      (dataLines (csvText csvContent)).map splitComma = data.map (valueTexts numToString) ∧
      ∀ i (hi : i < data.length),
        ((dataLines (csvText csvContent)).get? i).map splitComma =
          some (valueTexts numToString (data.get ⟨i, hi⟩)) := by
  obtain ⟨c, hcs, hl⟩ := buildCsvContent_lines numToString data hne hk hv
  have hd : (dataLines (csvText c)).map splitComma = data.map (valueTexts numToString) := by
    simp only [dataLines, hl, List.tail_cons, List.map_map]
    apply List.map_congr_left
    intro item hi
    have hne' : valueTexts numToString item ≠ [] := by
      simpa [valueTexts, objectValues] using hf item hi
    exact List.splitOn_intercalate _ ',' (hc item hi) hne'
  refine ⟨c, hcs, hd, ?_⟩
  intro i hi
  have := congrArg (fun l => l.get? i) hd
  simpa [List.getElem?_eq_getElem hi] using this

/-- C4, witness: two records of two fields each. -/
theorem exportToCSV_round_trip_witness :
    ∃ csvContent,
      buildCsvContent decimal
        [[("id".toList, Scalar.num 3), ("word".toList, Scalar.str "good day".toList)],
         [("id".toList, Scalar.num 4), ("word".toList, Scalar.str "".toList)]]
        = .ok csvContent ∧
      (dataLines (csvText csvContent)).map splitComma =
        [["3".toList, "good day".toList], ["4".toList, "".toList]] :=
  (exportToCSV_round_trip decimal
    [[("id".toList, Scalar.num 3), ("word".toList, Scalar.str "good day".toList)],
     [("id".toList, Scalar.num 4), ("word".toList, Scalar.str "".toList)]]
    (by decide) (by decide) (by decide) (by decide) (by decide)).imp
    fun _ h => ⟨h.1, h.2.1.trans (by decide)⟩

/-- C4 as stated fails.  A record without fields gives the empty data line,
which splits into one empty text although the record has no value; a value
holding a newline (and no comma) is cut over two data lines; and a key holding
a newline pushes the rest of the key among the data lines. -/
theorem exportToCSV_round_trip_fails :
    (buildCsvContent decimal [[]] = .ok "data:text/csv;charset=utf-8,\n\n".toList ∧
      (dataLines (csvText "data:text/csv;charset=utf-8,\n\n".toList)).map splitComma = [[[]]] ∧
      (dataLines (csvText "data:text/csv;charset=utf-8,\n\n".toList)).map splitComma
        ≠ [([] : Obj Nat)].map (valueTexts decimal)) ∧
    (buildCsvContent decimal [[("a".toList, Scalar.str "x\ny".toList)]]
        = .ok "data:text/csv;charset=utf-8,a\nx\ny\n".toList ∧
      (dataLines (csvText "data:text/csv;charset=utf-8,a\nx\ny\n".toList)).map splitComma
        = [["x".toList], ["y".toList]] ∧
      (dataLines (csvText "data:text/csv;charset=utf-8,a\nx\ny\n".toList)).map splitComma
        ≠ [[("a".toList, Scalar.str "x\ny".toList)]].map (valueTexts decimal)) ∧
    (buildCsvContent decimal [[("h\ni".toList, Scalar.num 6)]]
        = .ok "data:text/csv;charset=utf-8,h\ni\n6\n".toList ∧
      (dataLines (csvText "data:text/csv;charset=utf-8,h\ni\n6\n".toList)).map splitComma
        = [["i".toList], ["6".toList]] ∧
      (dataLines (csvText "data:text/csv;charset=utf-8,h\ni\n6\n".toList)).map splitComma
        ≠ [[("h\ni".toList, Scalar.num 6)]].map (valueTexts decimal)) :=
  ⟨⟨rfl, by decide, by decide⟩, ⟨rfl, by decide, by decide⟩, rfl, by decide, by decide⟩

/-- C5: given an empty record sequence, `exportToCSV` raises a `TypeError`
(reading the keys of `data[0]`, which is `undefined`) and leaves the page as it
was: no payload is built and no createElement, setAttribute, appendChild or
click call is made, whatever the file name and the host's `encodeURI`. -/
theorem exportToCSV_empty_raises {Num : Type} (numToString : Num → Str)
    (encodeURI : Str → Except JSError Str) (filename : Str) (page : Page Num) :
    buildCsvContent numToString ([] : List (Obj Num)) = .error .typeError ∧
    exportToCSV numToString encodeURI [] filename page = (.error .typeError, page) :=
  ⟨rfl, rfl⟩

/-! ## Table initializer -/

/-- C6, the code at a failing input: in a document whose table carries the id
`resultsTable`, the existence check finds the table (position 1), yet the
widget is applied to `$("resultsTable")`, a tag-name selection that is empty,
so the table found by the check is not configured. -/
theorem initializeDataTable_misses_found_element :
    getElementById samplePage.elements "resultsTable".toList = some 1 ∧
    jQuery samplePage.elements "resultsTable".toList = some [] ∧
    initializeDataTable "resultsTable".toList samplePage =
      some (.ok (), { samplePage with calls := [.dataTable [] tableConfig] }) :=
  ⟨by decide, by decide, rfl⟩

/-! ## Charts -/

theorem lookup_eq_some_iff_mem {Num : Type} (o : Obj Num) (hnd : (o.map Prod.fst).Nodup)
    (key : Str) (v : Scalar Num) : o.lookup key = some v ↔ (key, v) ∈ o := by
  induction o with
  | nil => simp
  | cons kv rest ih =>
    obtain ⟨k, w⟩ := kv
    simp only [List.map_cons, List.nodup_cons] at hnd
    by_cases hk : key = k
    · subst hk
      have hnot : (key, v) ∉ rest := fun hm => hnd.1 (List.mem_map.2 ⟨(key, v), hm, rfl⟩)
      simp only [List.lookup_cons, beq_self_eq_true, Option.some.injEq, List.mem_cons,
        Prod.mk.injEq, true_and, hnot, or_false]
      exact eq_comm
    · have hb : (key == k) = false := by simpa using hk
      simp only [List.lookup_cons, hb, List.mem_cons, Prod.mk.injEq, hk, false_and, false_or]
      exact ih hnd.2

theorem getProp_of_mem {Num : Type} (o : Obj Num) (hnd : (o.map Prod.fst).Nodup)
    (key : Str) (v : Scalar Num) (h : (key, v) ∈ o) : getProp o key = v := by
  simp [getProp, (lookup_eq_some_iff_mem o hnd key v).2 h]

/-- C7: for every present rendering surface and every summary object holding
the counts `positive`, `negative` and `neutral` under distinct keys listed in
any order (other keys may be present), `initializeSentimentChart` constructs
one chart whose labels are Positive, Negative, Neutral and whose single
dataset has exactly the values positive, negative, neutral in that order. -/
theorem initializeSentimentChart_dataset {Num : Type} (ctx : Ctx) (summary : Obj Num)
    (positive negative neutral : Num) (page : Page Num)
    (hnd : (summary.map Prod.fst).Nodup)
    (hp : ("positive".toList, Scalar.num positive) ∈ summary)
    (hn : ("negative".toList, Scalar.num negative) ∈ summary)
    (hu : ("neutral".toList, Scalar.num neutral) ∈ summary) :
    ∃ config dataset,
      initializeSentimentChart (some ctx) (some summary) page =
        (.ok (), { page with calls := page.calls ++ [.newChart ctx config] }) ∧
      config.labels = ["Positive".toList, "Negative".toList, "Neutral".toList] ∧
      config.datasets = [dataset] ∧
      dataset.data = [Scalar.num positive, Scalar.num negative, Scalar.num neutral] := by
  refine ⟨_, _, rfl, rfl, rfl, ?_⟩
  simp only [getProp_of_mem summary hnd _ _ hp, getProp_of_mem summary hnd _ _ hn,
    getProp_of_mem summary hnd _ _ hu]

/-- C7, witness: the summary positive 3, negative 1, neutral 2, its keys
listed as neutral, positive, negative, gives the values 3, 1, 2. -/
theorem initializeSentimentChart_dataset_witness :
    ∃ config dataset,
      initializeSentimentChart (some 0)
          (some [("neutral".toList, Scalar.num 2), ("positive".toList, Scalar.num 3),
            ("negative".toList, Scalar.num 1)]) samplePage =
        (.ok (), { samplePage with calls := samplePage.calls ++ [.newChart 0 config] }) ∧
      config.labels = ["Positive".toList, "Negative".toList, "Neutral".toList] ∧
      config.datasets = [dataset] ∧
      dataset.data = [Scalar.num 3, Scalar.num 1, Scalar.num 2] :=
  initializeSentimentChart_dataset 0
    [("neutral".toList, Scalar.num 2), ("positive".toList, Scalar.num 3),
      ("negative".toList, Scalar.num 1)] 3 1 2 samplePage (by decide) (by decide) (by decide)
    (by decide)

theorem mapPoints_present {Num β : Type} (f : Obj Num → β) (points : List (Obj Num)) :
    mapPoints f (points.map some) = .ok (points.map f) := by
  induction points with
  | nil => rfl
  | cons d rest ih => simp [mapPoints, ih]

/-- C8: for every present rendering surface and every sequence of timeline
points, `initializeTimelineChart` constructs one chart whose label array and
whose value array have the length of the input, the value at `i` being point
`i`'s `compound_score` and the label at `i` the host's time text of point
`i`'s `timestamp`: input order is kept, nothing is sorted or dropped.  For two
points with scores `a` and `b` the value array is `a, b`. -/
theorem initializeTimelineChart_arrays {Num : Type} (timeLabel : Scalar Num → Str) (ctx : Ctx)
    (points : List (Obj Num)) (page : Page Num) :
    ∃ config dataset,
      initializeTimelineChart timeLabel (some ctx) (some (points.map some)) page =
        (.ok (), { page with calls := page.calls ++ [.newChart ctx config] }) ∧
      config.datasets = [dataset] ∧
      config.labels = points.map (fun d => timeLabel (getProp d "timestamp".toList)) ∧
      dataset.data = points.map (fun d => getProp d "compound_score".toList) ∧
      config.labels.length = points.length ∧
      dataset.data.length = points.length ∧
      (∀ i (hi : i < points.length),
        dataset.data.get? i = some (getProp (points.get ⟨i, hi⟩) "compound_score".toList) ∧
        config.labels.get? i =
          some (timeLabel (getProp (points.get ⟨i, hi⟩) "timestamp".toList))) ∧
      (∀ (t1 t2 : Scalar Num) (a b : Num),
        points = [[("timestamp".toList, t1), ("compound_score".toList, Scalar.num a)],
                  [("timestamp".toList, t2), ("compound_score".toList, Scalar.num b)]] →
        dataset.data = [Scalar.num a, Scalar.num b] ∧ config.labels.length = 2) := by
  simp only [initializeTimelineChart, mapPoints_present]
  refine ⟨_, _, rfl, rfl, rfl, rfl, ?_, ?_, ?_, ?_⟩
  · simp
  · simp
  · intro i hi
    simp [List.getElem?_eq_getElem hi]
  · rintro t1 t2 a b rfl
    exact ⟨rfl, rfl⟩

/-- C8, instance: two points with scores 0.5 and -0.2 give the value array
0.5, -0.2 and two labels. -/
theorem initializeTimelineChart_arrays_witness :
    ∃ (config : ChartConfig ℚ) (dataset : Dataset ℚ),
      @initializeTimelineChart ℚ (fun v => elementText (fun _ => []) v) (some 0)
          (some ([[("timestamp".toList, Scalar.num 1700000000000),
                    ("compound_score".toList, Scalar.num 0.5)],
                  [("timestamp".toList, Scalar.num 1700000060000),
                    ("compound_score".toList, Scalar.num (-0.2))]].map some))
          ⟨[], [], []⟩ =
        (.ok (), { (⟨[], [], []⟩ : Page ℚ) with calls := [] ++ [.newChart 0 config] }) ∧
      config.datasets = [dataset] ∧
      dataset.data = [Scalar.num 0.5, Scalar.num (-0.2)] ∧
      config.labels.length = 2 := by
  obtain ⟨config, dataset, h⟩ :=
    @initializeTimelineChart_arrays ℚ (fun v => elementText (fun _ => []) v) 0
      [[("timestamp".toList, Scalar.num 1700000000000),
        ("compound_score".toList, Scalar.num 0.5)],
       [("timestamp".toList, Scalar.num 1700000060000),
        ("compound_score".toList, Scalar.num (-0.2))]]
      ⟨[], [], []⟩
  exact ⟨config, dataset, h.1, h.2.1, h.2.2.2.2.2.2.2 _ _ _ _ rfl⟩

/-! ## Absent targets -/

/-- C9: when the target is absent the initializers do nothing and raise no
error.  With an identifier that names no element, `initializeDataTable` returns
normally with the page, trace included, unchanged; with an absent rendering
surface so do `initializeSentimentChart` and `initializeTimelineChart`, for
every data argument, missing or malformed data included. -/
theorem initializers_absent_target {Num : Type} (timeLabel : Scalar Num → Str) (tableId : Str)
    (summary : Option (Obj Num)) (points : Option (List (Option (Obj Num)))) (page : Page Num)
    (habsent : getElementById page.elements tableId = none) :
    initializeDataTable tableId page = some (.ok (), page) ∧
    initializeSentimentChart none summary page = (.ok (), page) ∧
    initializeTimelineChart timeLabel none points page = (.ok (), page) := by
  refine ⟨?_, rfl, rfl⟩
  simp [initializeDataTable, habsent]

/-- C9, witness: no element of the sample document has the id `missing`; the
data arguments are missing. -/
theorem initializers_absent_target_witness :
    getElementById samplePage.elements "missing".toList = none ∧
    initializeDataTable "missing".toList samplePage = some (.ok (), samplePage) ∧
    initializeSentimentChart none none samplePage = (.ok (), samplePage) ∧
    initializeTimelineChart (fun _ => []) none none samplePage = (.ok (), samplePage) :=
  ⟨by decide, initializers_absent_target (fun _ => []) "missing".toList none none samplePage
    (by decide)⟩

/-! ## Form validation -/

theorem foldl_addListener {Num : Type} (forms : List Nat) (page : Page Num) :
    forms.foldl (fun p form => { p with submitListeners := p.submitListeners ++ [form] }) page =
      { page with submitListeners := page.submitListeners ++ forms } := by
  induction forms generalizing page with
  | nil => simp
  | cons f rest ih => simp [ih]

theorem mem_positionsWhere (elements : List Element) (p : Element → Bool) (i : Nat)
    (e : Element) (he : elements.get? i = some e) (hp : p e = true) :
    i ∈ positionsWhere elements p := by
  have hlt : i < elements.length := by
    by_contra hge
    rw [List.get?_eq_none.2 (Nat.le_of_not_lt hge)] at he
    cases he
  simp only [positionsWhere, List.mem_filter, List.mem_range, he]
  exact ⟨hlt, hp⟩

/-- C10: every form marked `needs-validation` gets the submit listener at load
time, and that listener calls `preventDefault` and `stopPropagation` on the
event if and only if the form's constraint check reports invalid (on a valid
form it makes no call on the event); valid or not, the form carries the class
`was-validated` after the listener has run. -/
theorem form_validation_listener {Num : Type} (page : Page Num) (i : Nat) (form : Element)
    (valid : Bool)
    (hform : page.elements.get? i = some form)
    (hmark : "needs-validation".toList ∈ form.classes)
    (hcheck : form.validity = some valid) :
    i ∈ (installFormValidation page).submitListeners ∧
    ∃ calls after, submitListener form = (.ok calls, after) ∧
      ((EventCall.preventDefault ∈ calls ∧ EventCall.stopPropagation ∈ calls) ↔ valid = false) ∧
      (valid = true → calls = []) ∧
      "was-validated".toList ∈ after.classes := by
  constructor
  · simp only [installFormValidation, foldl_addListener, List.mem_append]
    exact Or.inr (mem_positionsWhere _ _ i form hform (by simpa using hmark))
  · simp only [submitListener, hcheck]
    refine ⟨_, _, rfl, ?_, ?_, ?_⟩
    · cases valid <;> simp
    · intro hv
      simp [hv]
    · simp only [classListAdd]
      split <;> simp_all

/-- C10, witness: an invalid marked form gets the listener, which makes both
calls on the event and marks the form. -/
theorem form_validation_listener_witness :
    0 ∈ (installFormValidation
      (⟨[⟨"form".toList, none, ["needs-validation".toList], some false⟩], [], []⟩ :
        Page Nat)).submitListeners ∧
    ∃ calls after,
      submitListener ⟨"form".toList, none, ["needs-validation".toList], some false⟩ =
        (.ok calls, after) ∧
      ((EventCall.preventDefault ∈ calls ∧ EventCall.stopPropagation ∈ calls) ↔ false = false) ∧
      (false = true → calls = []) ∧
      "was-validated".toList ∈ after.classes :=
  form_validation_listener
    (⟨[⟨"form".toList, none, ["needs-validation".toList], some false⟩], [], []⟩ : Page Nat)
    0 ⟨"form".toList, none, ["needs-validation".toList], some false⟩ false rfl (by decide) rfl

end Main
